import Mathlib

/-!
Verification of the Fin_Health repository: the financial-health scoring
pipeline (spec sections 3, 4.3, 4.4, 6, 7) and the React frontend pages
(Dashboard.tsx, Companies.tsx, AssessmentDetail.tsx, api.ts).

The Python backend (Document Normalizer, Metric Engine, Scoring Model,
Assessment Synthesizer) is not part of the checked-in sources; definitions
for it are modelled from the specification text and are marked as such in
their doc comments.  The frontend definitions are translated directly from
the TypeScript sources.
-/

namespace FinHealth

/-- Risk tier enumeration, from the ScoreResult data model: Low, Medium,
High, Critical. -/
inductive RiskLevel
  | Low
  | Medium
  | High
  | Critical
deriving DecidableEq, Repr

/-- Modelled from the spec (section 4.3 Scoring Model, missing backend code):
risk tier derived from fixed score bands, inclusive on the lower bound of
each band: [70,100] Low, [40,70) Medium, [20,40) High, [0,20) Critical. -/
def riskLevel (s : ℕ) : RiskLevel :=
  if 70 ≤ s then .Low
  else if 40 ≤ s then .Medium
  else if 20 ≤ s then .High
  else .Critical

/-- Severity rank of a risk tier: Low is best (0), Critical worst (3). -/
def severity : RiskLevel → ℕ
  | .Low => 0
  | .Medium => 1
  | .High => 2
  | .Critical => 3

/-- Translated from AssessmentDetail.tsx (src/unnamed/part_001 lines 55-59),
function getScoreColor: score at least 70 renders green, at least 40 yellow,
otherwise red. -/
def getScoreColor (score : ℕ) : String :=
  if 70 ≤ score then "text-green-600"
  else if 40 ≤ score then "text-yellow-600"
  else "text-red-600"

/-- Translated from Companies.tsx (CompanyDetail component, line 508): the
inline conditional class for the health score uses the same 70/40 cutoffs. -/
def companyDetailScoreColor (score : ℕ) : String :=
  if 70 ≤ score then "text-green-600"
  else if 40 ≤ score then "text-yellow-600"
  else "text-red-600"

/-- C1: for every health score s in [0,100] the risk tier follows the fixed
bands with inclusive lower bounds ([70,100] Low, [40,70) Medium, [20,40)
High, [0,20) Critical), the stated boundary examples hold (70 Low, 69 and 40
Medium, 39 and 20 High, 19 Critical), and the UI color classification in
both AssessmentDetail.tsx and Companies.tsx agrees with these thresholds
(green exactly on the Low band, yellow exactly on the Medium band, red below
40). -/
theorem risk_bands_and_ui_colors (s : ℕ) (hs : s ≤ 100) :
    (riskLevel s = .Low ↔ 70 ≤ s) ∧
    (riskLevel s = .Medium ↔ 40 ≤ s ∧ s < 70) ∧
    (riskLevel s = .High ↔ 20 ≤ s ∧ s < 40) ∧
    (riskLevel s = .Critical ↔ s < 20) ∧
    riskLevel 70 = .Low ∧ riskLevel 69 = .Medium ∧ riskLevel 40 = .Medium ∧
    riskLevel 39 = .High ∧ riskLevel 20 = .High ∧ riskLevel 19 = .Critical ∧
    (getScoreColor s = "text-green-600" ↔ riskLevel s = .Low) ∧
    (getScoreColor s = "text-yellow-600" ↔ riskLevel s = .Medium) ∧
    (getScoreColor s = "text-red-600" ↔
      (riskLevel s = .High ∨ riskLevel s = .Critical)) ∧
    companyDetailScoreColor s = getScoreColor s := by
  refine ⟨?_, ?_, ?_, ?_, by decide, by decide, by decide, by decide, by decide,
    by decide, ?_, ?_, ?_, ?_⟩ <;>
    simp only [riskLevel, getScoreColor, companyDetailScoreColor] <;>
    split_ifs with h1 h2 h3 <;>
    first
      | rfl
      | decide
      | (simp <;> omega)

/-- Concrete check of risk_bands_and_ui_colors at score 70. -/
theorem risk_bands_and_ui_colors_witness :
    70 ≤ 100 ∧ (riskLevel 70 = .Low ↔ 70 ≤ 70) :=
  ⟨by decide, (risk_bands_and_ui_colors 70 (by decide)).1⟩

/-- Names for the five weighted sub-scores of the Scoring Model
(profitability, liquidity, leverage, growth, efficiency). -/
inductive SubMetric
  | profitability
  | liquidity
  | leverage
  | growth
  | efficiency
deriving DecidableEq, Repr

/-- Modelled from the spec (section 3 MetricSet, missing backend code): the
scoring-relevant projection of a MetricSet.  Each field is the input of one
sub-score; a field holding none is marked "not available" (for example a
balance-sheet ratio whose categories are absent for the period).  Values are
rationals; margin and growth fields are percentages. -/
structure MetricSet where
  net_margin : Option ℚ
  current_ratio : Option ℚ
  debt_to_equity : Option ℚ
  revenue_growth_rate : Option ℚ
  operating_margin : Option ℚ
deriving DecidableEq, Repr

/-- Input metric consumed by each sub-score: profitability reads the net
margin, liquidity the current ratio, leverage the debt-to-equity ratio,
growth the revenue growth rate, efficiency the operating margin. -/
def inputOf (m : MetricSet) : SubMetric → Option ℚ
  | .profitability => m.net_margin
  | .liquidity => m.current_ratio
  | .leverage => m.debt_to_equity
  | .growth => m.revenue_growth_rate
  | .efficiency => m.operating_margin

/-- Replace the input of one sub-score, holding the other fields fixed. -/
def setInput (m : MetricSet) : SubMetric → Option ℚ → MetricSet
  | .profitability, v => { m with net_margin := v }
  | .liquidity, v => { m with current_ratio := v }
  | .leverage, v => { m with debt_to_equity := v }
  | .growth, v => { m with revenue_growth_rate := v }
  | .efficiency, v => { m with operating_margin := v }

/-- Modelled from the spec (section 4.3, missing backend code): fixed weights
of the five sub-scores, loaded once at startup and never mutated. -/
def weight : SubMetric → ℚ
  | .profitability => 30
  | .liquidity => 20
  | .leverage => 20
  | .growth => 20
  | .efficiency => 10

/-- Clamp a rational into the closed interval from lo to hi. -/
def clampQ (lo hi x : ℚ) : ℚ := max lo (min hi x)

/-- Piecewise-linear normalization to the range 0 to 100: value lo or below
maps to 0, value hi or above maps to 100, linear between. -/
def clampedLinear (lo hi x : ℚ) : ℚ := 100 * (clampQ lo hi x - lo) / (hi - lo)

/-- Modelled from the spec (section 4.3, missing backend code): each
sub-score is normalized to 0 to 100 via metric-specific piecewise-linear
thresholds calibrated against typical SME ranges; the spec gives the
profitability example (net margin at least 15 percent maps to 100, at most 0
percent maps to 0, linear between).  Leverage improves as debt-to-equity
falls, so its sub-score is the reversed ramp. -/
def subScore : SubMetric → ℚ → ℚ
  | .profitability, x => clampedLinear 0 15 x
  | .liquidity, x => clampedLinear (1 / 2) 2 x
  | .leverage, x => 100 - clampedLinear 0 3 x
  | .growth, x => clampedLinear (-20) 20 x
  | .efficiency, x => clampedLinear 0 15 x

/-- Improvement order of a single input metric: for debt-to-equity a lower
value is an improvement, for every other metric a higher value is. -/
def better (f : SubMetric) (x y : ℚ) : Prop :=
  match f with
  | .leverage => y ≤ x
  | _ => x ≤ y

/-- The five sub-metrics in a fixed order. -/
def allSubMetrics : List SubMetric :=
  [.profitability, .liquidity, .leverage, .growth, .efficiency]

/-- Contribution of one sub-score to the weighted sum: weight times
sub-score when the input is available, nothing when it is not. -/
def termOf (m : MetricSet) (f : SubMetric) : ℚ :=
  match inputOf m f with
  | some x => weight f * subScore f x
  | none => 0

/-- Weight of one sub-score counted only when its input is available. -/
def availWeight (m : MetricSet) (f : SubMetric) : ℚ :=
  match inputOf m f with
  | some _ => weight f
  | none => 0

/-- Weighted sum of the available sub-scores. -/
def weightedNum (m : MetricSet) : ℚ := (allSubMetrics.map (termOf m)).sum

/-- Total weight of the available sub-scores; dividing by it renormalizes
the remaining weights to sum to 1. -/
def weightDen (m : MetricSet) : ℚ := (allSubMetrics.map (availWeight m)).sum

/-- Modelled from the spec (section 4.3, missing backend code): composite
score as the weighted average of the available sub-scores, with sub-scores
whose inputs are not available excluded and the remaining weights
renormalized to sum to 1. -/
def composite (m : MetricSet) : ℚ :=
  if weightDen m = 0 then 0 else weightedNum m / weightDen m

/-- Rounding to the nearest integer. -/
def roundNearest (q : ℚ) : ℤ := ⌊q + 1 / 2⌋

/-- Modelled from the spec (section 4.3, missing backend code): the 0 to 100
integer health score, the composite rounded to the nearest integer and
clamped to the interval. -/
def financialHealthScore (m : MetricSet) : ℕ :=
  (min 100 (max 0 (roundNearest (composite m)))).toNat

/-- ScoreResult record from the data model: a 0 to 100 integer health score
and a risk tier. -/
structure ScoreResult where
  financial_health_score : ℕ
  risk_level : RiskLevel
deriving DecidableEq, Repr

/-- Modelled from the spec (section 4.3 contract, missing backend code): the
Scoring Model as a pure function from a MetricSet to a ScoreResult. -/
def scoreModel (m : MetricSet) : ScoreResult :=
  { financial_health_score := financialHealthScore m
    risk_level := riskLevel (financialHealthScore m) }

lemma weight_pos (f : SubMetric) : 0 < weight f := by
  cases f <;> norm_num [weight]

lemma clampedLinear_mono (lo hi : ℚ) (hlh : lo < hi) {x y : ℚ} (h : x ≤ y) :
    clampedLinear lo hi x ≤ clampedLinear lo hi y := by
  have h1 : min hi x ≤ min hi y := min_le_min le_rfl h
  have h2 : max lo (min hi x) ≤ max lo (min hi y) := max_le_max le_rfl h1
  have h3 : (0 : ℚ) < hi - lo := by linarith
  unfold clampedLinear clampQ
  exact (div_le_div_iff_of_pos_right h3).mpr (by nlinarith)

lemma clampedLinear_nonneg (lo hi x : ℚ) (hlh : lo < hi) :
    0 ≤ clampedLinear lo hi x := by
  have h1 : lo ≤ max lo (min hi x) := le_max_left _ _
  have h3 : (0 : ℚ) < hi - lo := by linarith
  unfold clampedLinear clampQ
  exact div_nonneg (mul_nonneg (by norm_num) (by linarith)) (le_of_lt h3)

lemma clampedLinear_le_100 (lo hi x : ℚ) (hlh : lo < hi) :
    clampedLinear lo hi x ≤ 100 := by
  have h1 : max lo (min hi x) ≤ hi := max_le (le_of_lt hlh) (min_le_left _ _)
  have h3 : (0 : ℚ) < hi - lo := by linarith
  unfold clampedLinear clampQ
  rw [div_le_iff₀ h3]
  nlinarith

lemma subScore_nonneg (f : SubMetric) (x : ℚ) : 0 ≤ subScore f x := by
  cases f <;> simp only [subScore]
  · exact clampedLinear_nonneg 0 15 x (by norm_num)
  · exact clampedLinear_nonneg (1 / 2) 2 x (by norm_num)
  · have := clampedLinear_le_100 0 3 x (by norm_num)
    linarith
  · exact clampedLinear_nonneg (-20) 20 x (by norm_num)
  · exact clampedLinear_nonneg 0 15 x (by norm_num)

lemma subScore_le_100 (f : SubMetric) (x : ℚ) : subScore f x ≤ 100 := by
  cases f <;> simp only [subScore]
  · exact clampedLinear_le_100 0 15 x (by norm_num)
  · exact clampedLinear_le_100 (1 / 2) 2 x (by norm_num)
  · have := clampedLinear_nonneg 0 3 x (by norm_num)
    linarith
  · exact clampedLinear_le_100 (-20) 20 x (by norm_num)
  · exact clampedLinear_le_100 0 15 x (by norm_num)

lemma subScore_mono (f : SubMetric) {x y : ℚ} (h : better f x y) :
    subScore f x ≤ subScore f y := by
  cases f <;> simp only [subScore, better] at h ⊢
  · exact clampedLinear_mono 0 15 (by norm_num) h
  · exact clampedLinear_mono (1 / 2) 2 (by norm_num) h
  · have := clampedLinear_mono 0 3 (by norm_num) h
    linarith
  · exact clampedLinear_mono (-20) 20 (by norm_num) h
  · exact clampedLinear_mono 0 15 (by norm_num) h

lemma weightedNum_expand (m : MetricSet) :
    weightedNum m = termOf m .profitability + termOf m .liquidity +
      termOf m .leverage + termOf m .growth + termOf m .efficiency := by
  simp [weightedNum, allSubMetrics]
  ring

lemma weightDen_expand (m : MetricSet) :
    weightDen m = availWeight m .profitability + availWeight m .liquidity +
      availWeight m .leverage + availWeight m .growth +
      availWeight m .efficiency := by
  simp [weightDen, allSubMetrics]
  ring

lemma termOf_nonneg (m : MetricSet) (f : SubMetric) : 0 ≤ termOf m f := by
  cases hf : inputOf m f <;> simp [termOf, hf]
  exact mul_nonneg (le_of_lt (weight_pos f)) (subScore_nonneg f _)

lemma availWeight_nonneg (m : MetricSet) (f : SubMetric) :
    0 ≤ availWeight m f := by
  cases hf : inputOf m f <;> simp [availWeight, hf]
  exact le_of_lt (weight_pos f)

lemma availWeight_of_some {m : MetricSet} {f : SubMetric} {x : ℚ}
    (hx : inputOf m f = some x) : availWeight m f = weight f := by
  simp [availWeight, hx]

lemma weightedNum_nonneg (m : MetricSet) : 0 ≤ weightedNum m := by
  rw [weightedNum_expand]
  have h1 := termOf_nonneg m .profitability
  have h2 := termOf_nonneg m .liquidity
  have h3 := termOf_nonneg m .leverage
  have h4 := termOf_nonneg m .growth
  have h5 := termOf_nonneg m .efficiency
  linarith

lemma weightDen_nonneg (m : MetricSet) : 0 ≤ weightDen m := by
  rw [weightDen_expand]
  have h1 := availWeight_nonneg m .profitability
  have h2 := availWeight_nonneg m .liquidity
  have h3 := availWeight_nonneg m .leverage
  have h4 := availWeight_nonneg m .growth
  have h5 := availWeight_nonneg m .efficiency
  linarith

lemma weightDen_pos {m : MetricSet} {f : SubMetric} {x : ℚ}
    (hx : inputOf m f = some x) : 0 < weightDen m := by
  have h1 := availWeight_nonneg m .profitability
  have h2 := availWeight_nonneg m .liquidity
  have h3 := availWeight_nonneg m .leverage
  have h4 := availWeight_nonneg m .growth
  have h5 := availWeight_nonneg m .efficiency
  have he := availWeight_of_some hx
  have hw := weight_pos f
  rw [weightDen_expand]
  cases f <;> linarith

lemma num_den_setInput (m : MetricSet) (f : SubMetric) (x y : ℚ)
    (hx : inputOf m f = some x) :
    weightDen (setInput m f (some y)) = weightDen m ∧
    weightedNum (setInput m f (some y)) =
      weightedNum m + weight f * (subScore f y - subScore f x) := by
  cases f <;> simp only [inputOf] at hx <;>
    constructor <;>
    simp [weightDen_expand, weightedNum_expand, termOf, availWeight,
      inputOf, setInput, hx] <;>
    ring

lemma num_den_setInput_of_none (m : MetricSet) (f : SubMetric) (z : ℚ)
    (hx : inputOf m f = none) :
    weightDen (setInput m f (some z)) = weightDen m + weight f ∧
    weightedNum (setInput m f (some z)) =
      weightedNum m + weight f * subScore f z := by
  cases f <;> simp only [inputOf] at hx <;>
    constructor <;>
    simp [weightDen_expand, weightedNum_expand, termOf, availWeight,
      inputOf, setInput, hx] <;>
    ring

lemma termOf_eq_zero_of_availWeight_eq_zero (m : MetricSet) (f : SubMetric)
    (h : availWeight m f = 0) : termOf m f = 0 := by
  cases hf : inputOf m f
  · simp [termOf, hf]
  · exfalso
    have hw := weight_pos f
    simp [availWeight, hf] at h
    linarith

lemma weightedNum_eq_zero_of_den_zero {m : MetricSet}
    (h : weightDen m = 0) : weightedNum m = 0 := by
  have h1 := availWeight_nonneg m .profitability
  have h2 := availWeight_nonneg m .liquidity
  have h3 := availWeight_nonneg m .leverage
  have h4 := availWeight_nonneg m .growth
  have h5 := availWeight_nonneg m .efficiency
  rw [weightDen_expand] at h
  rw [weightedNum_expand]
  rw [termOf_eq_zero_of_availWeight_eq_zero m .profitability (by linarith),
    termOf_eq_zero_of_availWeight_eq_zero m .liquidity (by linarith),
    termOf_eq_zero_of_availWeight_eq_zero m .leverage (by linarith),
    termOf_eq_zero_of_availWeight_eq_zero m .growth (by linarith),
    termOf_eq_zero_of_availWeight_eq_zero m .efficiency (by linarith)]
  ring

lemma financialHealthScore_mono {m1 m2 : MetricSet}
    (h : composite m1 ≤ composite m2) :
    financialHealthScore m1 ≤ financialHealthScore m2 := by
  unfold financialHealthScore roundNearest
  exact Int.toNat_le_toNat
    (min_le_min le_rfl (max_le_max le_rfl (Int.floor_le_floor (by linarith))))

/-- C5: the Scoring Model is monotonic per sub-metric: for every MetricSet,
improving any single available input metric while holding all other metrics
fixed never decreases the composite financial health score; and a higher
composite score never yields a strictly higher (worse) risk tier. -/
theorem scoring_monotone :
    (∀ (m : MetricSet) (f : SubMetric) (x y : ℚ),
        inputOf m f = some x → better f x y →
        financialHealthScore m ≤ financialHealthScore (setInput m f (some y)))
    ∧ (∀ s t : ℕ, s ≤ t → severity (riskLevel t) ≤ severity (riskLevel s)) := by
  constructor
  · intro m f x y hx hb
    have hnd := num_den_setInput m f x y hx
    have hpos : 0 < weightDen m := weightDen_pos hx
    have hmono : subScore f x ≤ subScore f y := subScore_mono f hb
    have hw := weight_pos f
    apply financialHealthScore_mono
    unfold composite
    rw [hnd.1, hnd.2, if_neg (ne_of_gt hpos), if_neg (ne_of_gt hpos)]
    have hterm : 0 ≤ weight f * (subScore f y - subScore f x) :=
      mul_nonneg (le_of_lt hw) (by linarith)
    exact (div_le_div_iff_of_pos_right hpos).mpr (by linarith)
  · intro s t h
    unfold riskLevel
    split_ifs <;> simp [severity] <;> omega

/-- MetricSet used to instantiate the monotonicity theorem. -/
def M0 : MetricSet :=
  { net_margin := some 5
    current_ratio := some 1
    debt_to_equity := none
    revenue_growth_rate := none
    operating_margin := none }

/-- Concrete check of scoring_monotone: raising the net margin of M0 from 5
to 10 percent does not lower the score, and score 80 is in a tier no worse
than score 50. -/
theorem scoring_monotone_witness :
    inputOf M0 .profitability = some 5 ∧ better .profitability (5 : ℚ) 10 ∧
    financialHealthScore M0 ≤
      financialHealthScore (setInput M0 .profitability (some 10)) ∧
    (50 : ℕ) ≤ 80 ∧ severity (riskLevel 80) ≤ severity (riskLevel 50) :=
  ⟨rfl, by norm_num [better],
    scoring_monotone.1 M0 .profitability 5 10 rfl (by norm_num [better]),
    by norm_num, scoring_monotone.2 50 80 (by norm_num)⟩

/-- C6: sub-scores whose inputs are marked not available are excluded from
the weighted average and the remaining weights are renormalized to sum to 1
(first conjunct: whenever every available sub-score equals c, the composite
is exactly c, whichever subset of inputs is available), and a missing input
is neutral, never penalizing: marking it not available scores at least as
high as substituting any value whose sub-score is zero, such as a zeroed-out
missing balance-sheet ratio (second conjunct). -/
theorem unavailable_excluded_and_renormalized :
    (∀ (m : MetricSet) (c : ℚ),
        (∀ f x, inputOf m f = some x → subScore f x = c) →
        weightDen m ≠ 0 → composite m = c)
    ∧ (∀ (m : MetricSet) (f : SubMetric) (z : ℚ),
        inputOf m f = none → subScore f z = 0 →
        financialHealthScore (setInput m f (some z)) ≤
          financialHealthScore m) := by
  constructor
  · intro m c hall hden
    have ht : ∀ f, termOf m f = c * availWeight m f := by
      intro f
      cases hf : inputOf m f
      · simp [termOf, availWeight, hf]
      · simp [termOf, availWeight, hf, hall f _ hf]
        ring
    have hden' : availWeight m .profitability + availWeight m .liquidity +
        availWeight m .leverage + availWeight m .growth +
        availWeight m .efficiency ≠ 0 := by
      rw [← weightDen_expand]
      exact hden
    unfold composite
    rw [if_neg hden, weightedNum_expand, weightDen_expand,
      ht .profitability, ht .liquidity, ht .leverage, ht .growth,
      ht .efficiency, div_eq_iff hden']
    ring
  · intro m f z hnone hz
    have hnd := num_den_setInput_of_none m f z hnone
    have hw := weight_pos f
    have hnum0 := weightedNum_nonneg m
    have hden0 := weightDen_nonneg m
    apply financialHealthScore_mono
    unfold composite
    rw [hnd.1, hnd.2, hz, mul_zero, add_zero]
    rcases eq_or_lt_of_le hden0 with hzero | hpos
    · rw [if_pos hzero.symm, if_neg (by linarith),
        weightedNum_eq_zero_of_den_zero hzero.symm, zero_div]
    · rw [if_neg (ne_of_gt hpos), if_neg (by linarith)]
      rw [div_le_div_iff₀ (by linarith) hpos]
      nlinarith

/-- MetricSet with a single available input, used to instantiate the
renormalization theorem. -/
def M1 : MetricSet :=
  { net_margin := some 15
    current_ratio := none
    debt_to_equity := none
    revenue_growth_rate := none
    operating_margin := none }

/-- Concrete check of unavailable_excluded_and_renormalized on M1: with only
the profitability input available and its sub-score at 100, the composite is
exactly 100 (the lone remaining weight renormalizes to 1), and zeroing out
the missing current ratio can only lower the score. -/
theorem unavailable_excluded_and_renormalized_witness :
    composite M1 = 100 ∧
    financialHealthScore (setInput M1 .liquidity (some (1 / 2))) ≤
      financialHealthScore M1 :=
  ⟨unavailable_excluded_and_renormalized.1 M1 100
      (by
        intro f x hf
        cases f <;> simp [inputOf, M1] at hf
        rw [← hf]
        norm_num [subScore, clampedLinear, clampQ])
      (by norm_num [weightDen, allSubMetrics, availWeight, inputOf, M1, weight]),
    unavailable_excluded_and_renormalized.2 M1 .liquidity (1 / 2) rfl
      (by norm_num [subScore, clampedLinear, clampQ])⟩

/-- Line-item category enumeration from the data model: revenue,
cost_of_goods, operating_expense, tax, other. -/
inductive Category
  | revenue
  | cost_of_goods
  | operating_expense
  | tax
  | other
deriving DecidableEq, Repr

/-- LineItem from the data model: a dated, categorized monetary entry;
amount sign convention is inflows positive, outflows negative. -/
structure LineItem where
  date : ℕ
  description : String
  amount : ℚ
  category : Category
  source_document_id : ℕ
deriving DecidableEq, Repr

/-- NormalizedStatement from the data model: the ordered sequence of line
items produced by the Document Normalizer for one successfully normalized
document. -/
structure NormalizedStatement where
  company_id : ℕ
  items : List LineItem
deriving DecidableEq, Repr

/-- Sum of the amounts of the line items in one category. -/
def catTotal : List LineItem → Category → ℚ
  | [], _ => 0
  | i :: rest, c => (if i.category = c then i.amount else 0) + catTotal rest c

/-- Modelled from the spec (section 4.2 Metric Engine, missing backend
code), reduced to the scoring-relevant projection over one aggregate period:
revenue and expense totals are summed by category (expense amounts are
negative by the sign convention, so the expense magnitudes are negated
sums); margins are computed only when revenue is positive and are otherwise
marked not available; the balance-sheet ratios (current ratio,
debt-to-equity) have no category in the line-item enumeration and are
marked not available, as is the growth rate of a lone period; the engine
fails (returns none) when no line items exist. -/
def computeMetricSet (docs : List NormalizedStatement) : Option MetricSet :=
  let items := (docs.map (fun d => d.items)).flatten
  if items.isEmpty then none
  else
    let revenue := catTotal items .revenue
    let cogs := -(catTotal items .cost_of_goods)
    let opex := -(catTotal items .operating_expense)
    let taxes := -(catTotal items .tax)
    let expenses := cogs + opex + taxes
    some
      { net_margin :=
          if 0 < revenue then some (100 * (revenue - expenses) / revenue)
          else none
        current_ratio := none
        debt_to_equity := none
        revenue_growth_rate := none
        operating_margin :=
          if 0 < revenue then some (100 * (revenue - cogs - opex) / revenue)
          else none }

/-- Recommended-product record from the data model. -/
structure Product where
  product_name : String
  type : String
  interest_range : String
  benefits : List String
deriving DecidableEq, Repr

/-- SWOT point, matching the Assessment interface of AssessmentDetail.tsx. -/
structure SwotPoint where
  point : String
deriving DecidableEq, Repr

/-- Recommendation entry of a recommendation list: title and description. -/
structure RecItem where
  title : String
  description : String
deriving DecidableEq, Repr

/-- Modelled from the spec (section 4.4, missing backend code): the
structured payload returned by the AI backend after parsing; any missing
required list already defaulted to an empty list, while a missing executive
summary is kept as none because its absence is fatal. -/
structure AIPayload where
  executive_summary : Option String
  strengths : List SwotPoint
  weaknesses : List SwotPoint
  opportunities : List SwotPoint
  threats : List SwotPoint
  cost_optimization : List RecItem
  revenue_enhancement : List RecItem
  working_capital_tips : List RecItem
  tax_optimization : List RecItem
  recommended_products : List Product
deriving DecidableEq, Repr

/-- Assessment record from the data model and the Assessment interface of
AssessmentDetail.tsx, with the stored MetricSet snapshot. -/
structure Assessment where
  id : ℕ
  company_id : ℕ
  snapshot : MetricSet
  financial_health_score : ℕ
  risk_level : RiskLevel
  strengths : List SwotPoint
  weaknesses : List SwotPoint
  opportunities : List SwotPoint
  threats : List SwotPoint
  cost_optimization : List RecItem
  revenue_enhancement : List RecItem
  working_capital_tips : List RecItem
  tax_optimization : List RecItem
  recommended_products : List Product
  executive_summary : String
  language : String
  created_at : ℕ
deriving DecidableEq, Repr

/-- Error taxonomy from spec section 7. -/
inductive GenError
  | UnsupportedFormat
  | MalformedInput
  | LowQualityInput
  | InsufficientData
  | GenerationFailed
  | SchemaViolation
  | DuplicateInFlight
deriving DecidableEq, Repr

/-- Risk tiers subject to the product post-filter: High and Critical. -/
def isHighOrCritical : RiskLevel → Bool
  | .High => true
  | .Critical => true
  | _ => false

/-- Whether the static product table flags the named product as unsuitable
for High or Critical risk tiers.  The table is an immutable list of pairs of
a product name and its unsuitable-for-high-risk flag. -/
def flaggedUnsuitable (table : List (String × Bool)) (name : String) : Bool :=
  table.any (fun e => e.1 == name && e.2)

/-- Modelled from the spec (section 4.4, missing backend code): the hard
post-filter applied to the recommended products of every assessment whose
risk tier is High or Critical, removing every product the static table
flags as unsuitable, regardless of what the AI backend suggested. -/
def filterProducts (table : List (String × Bool)) (risk : RiskLevel)
    (ps : List Product) : List Product :=
  if isHighOrCritical risk then
    ps.filter (fun p => !(flaggedUnsuitable table p.product_name))
  else ps

/-- Modelled from the spec (section 4.4 contract, missing backend code): the
Assessment Synthesizer assembles the final assessment record from the
metric set, the score result and the validated backend payload; a missing
executive summary is fatal with SchemaViolation, and the recommended
products pass through the risk-tier post-filter. -/
def synthesize (companyId : ℕ) (m : MetricSet) (sr : ScoreResult)
    (payload : AIPayload) (table : List (String × Bool)) (lang : String)
    (aid now : ℕ) : Except GenError Assessment :=
  match payload.executive_summary with
  | none => .error .SchemaViolation
  | some es =>
      .ok
        { id := aid
          company_id := companyId
          snapshot := m
          financial_health_score := sr.financial_health_score
          risk_level := sr.risk_level
          strengths := payload.strengths
          weaknesses := payload.weaknesses
          opportunities := payload.opportunities
          threats := payload.threats
          cost_optimization := payload.cost_optimization
          revenue_enhancement := payload.revenue_enhancement
          working_capital_tips := payload.working_capital_tips
          tax_optimization := payload.tax_optimization
          recommended_products :=
            filterProducts table sr.risk_level payload.recommended_products
          executive_summary := es
          language := lang
          created_at := now }

/-- Modelled from the spec (sections 4.2, 4.4 and 7, missing backend code):
one assessment generation request.  A company with zero successfully
normalized documents fails fast with InsufficientData before any synthesis;
otherwise the Metric Engine output is scored and handed to the synthesizer
together with the validated backend payload. -/
def generateAssessment (docs : List NormalizedStatement) (payload : AIPayload)
    (table : List (String × Bool)) (companyId : ℕ) (lang : String)
    (aid now : ℕ) : Except GenError Assessment :=
  if docs.isEmpty then .error .InsufficientData
  else
    match computeMetricSet docs with
    | none => .error .InsufficientData
    | some m => synthesize companyId m (scoreModel m) payload table lang aid now

/-- Persistence step of a generation request: a successful generation
prepends the new assessment to the stored history (append-only, newest
first); a failed generation persists nothing. -/
def generateAndPersist (stored : List Assessment)
    (docs : List NormalizedStatement) (payload : AIPayload)
    (table : List (String × Bool)) (companyId : ℕ) (lang : String)
    (aid now : ℕ) : List Assessment :=
  match generateAssessment docs payload table companyId lang aid now with
  | .ok a => a :: stored
  | .error _ => stored

/-- Document record of the CompanyDetail page (Companies.tsx, Document
interface). -/
structure UIDocument where
  id : ℕ
  document_type : String
  file_name : String
  uploaded_at : ℕ
  processed : Bool
deriving DecidableEq, Repr

/-- Translated from Companies.tsx (CompanyDetail component, line 544): the
Generate Assessment button is disabled while a generation is in flight or
when the document list of the company is empty. -/
def generateDisabled (generating : Bool) (documents : List UIDocument) : Bool :=
  generating || documents.length == 0

/-- C2: for every persisted Assessment, re-running the Scoring Model on the
stored MetricSet snapshot reproduces exactly the stored ScoreResult, the
same financial_health_score and the same risk_level. -/
theorem assessment_roundtrip (docs : List NormalizedStatement)
    (payload : AIPayload) (table : List (String × Bool)) (cid : ℕ)
    (lang : String) (aid now : ℕ) (a : Assessment)
    (h : generateAssessment docs payload table cid lang aid now = .ok a) :
    scoreModel a.snapshot =
      { financial_health_score := a.financial_health_score
        risk_level := a.risk_level } := by
  unfold generateAssessment at h
  by_cases hd : docs.isEmpty
  · simp [hd] at h
  · simp only [hd, if_false, Bool.false_eq_true] at h
    cases hm : computeMetricSet docs with
    | none => rw [hm] at h; exact absurd h (by simp)
    | some m =>
      rw [hm] at h
      unfold synthesize at h
      cases hp : payload.executive_summary with
      | none => rw [hp] at h; exact absurd h (by simp)
      | some es =>
        rw [hp] at h
        simp only [Except.ok.injEq] at h
        rw [← h]

/-- Input documents used to instantiate the round-trip theorem: one
normalized statement with revenue 1000 and operating expenses 400. -/
def DOCS0 : List NormalizedStatement :=
  [{ company_id := 1
     items :=
      [{ date := 0
         description := "Sales"
         amount := 1000
         category := .revenue
         source_document_id := 1 },
       { date := 0
         description := "Rent"
         amount := -400
         category := .operating_expense
         source_document_id := 1 }] }]

/-- Backend payload used to instantiate the round-trip theorem. -/
def PAYLOAD0 : AIPayload :=
  { executive_summary := some "Summary"
    strengths := []
    weaknesses := []
    opportunities := []
    threats := []
    cost_optimization := []
    revenue_enhancement := []
    working_capital_tips := []
    tax_optimization := []
    recommended_products := [] }

/-- MetricSet computed from DOCS0: net margin and operating margin both 60
percent, the balance-sheet ratios and the growth rate not available. -/
def MS0 : MetricSet :=
  { net_margin := some 60
    current_ratio := none
    debt_to_equity := none
    revenue_growth_rate := none
    operating_margin := some 60 }

/-- Assessment produced by generating on DOCS0 with PAYLOAD0. -/
def A0 : Assessment :=
  { id := 1
    company_id := 1
    snapshot := MS0
    financial_health_score := 100
    risk_level := .Low
    strengths := []
    weaknesses := []
    opportunities := []
    threats := []
    cost_optimization := []
    revenue_enhancement := []
    working_capital_tips := []
    tax_optimization := []
    recommended_products := []
    executive_summary := "Summary"
    language := "en"
    created_at := 0 }

/-- Concrete check of assessment_roundtrip: generating on DOCS0 persists A0,
and re-scoring the snapshot of A0 reproduces its stored score and tier. -/
theorem assessment_roundtrip_witness :
    generateAssessment DOCS0 PAYLOAD0 [] 1 "en" 1 0 = .ok A0 ∧
    scoreModel A0.snapshot =
      { financial_health_score := A0.financial_health_score
        risk_level := A0.risk_level } := by
  have hm : computeMetricSet DOCS0 = some MS0 := by
    simp [computeMetricSet, DOCS0, MS0, catTotal]
    norm_num
  have hs : scoreModel MS0 =
      { financial_health_score := 100, risk_level := .Low } := by
    have hc : composite MS0 = 100 := by
      simp only [composite, weightedNum, weightDen, allSubMetrics, termOf,
        availWeight, inputOf, MS0, subScore, clampedLinear, clampQ, weight,
        List.map_cons, List.map_nil, List.sum_cons, List.sum_nil]
      norm_num
    have hf : financialHealthScore MS0 = 100 := by
      simp only [financialHealthScore, roundNearest, hc]
      norm_num
      decide
    simp [scoreModel, hf, riskLevel]
  have h1 : generateAssessment DOCS0 PAYLOAD0 [] 1 "en" 1 0 = .ok A0 := by
    unfold generateAssessment
    rw [if_neg (by decide), hm]
    show synthesize 1 MS0 (scoreModel MS0) PAYLOAD0 [] "en" 1 0 = .ok A0
    rw [hs]
    rfl
  exact ⟨h1, assessment_roundtrip DOCS0 PAYLOAD0 [] 1 "en" 1 0 A0 h1⟩

/-- C3: a company with zero successfully normalized documents cannot produce
an assessment: generation fails fast with InsufficientData, nothing is
persisted, and the Generate Assessment button of the CompanyDetail page is
disabled whenever the document list of the company is empty. -/
theorem zero_documents_insufficient_data (stored : List Assessment)
    (payload : AIPayload) (table : List (String × Bool)) (cid : ℕ)
    (lang : String) (aid now : ℕ) (generating : Bool) :
    generateAssessment [] payload table cid lang aid now =
      .error .InsufficientData ∧
    generateAndPersist stored [] payload table cid lang aid now = stored ∧
    generateDisabled generating [] = true := by
  refine ⟨rfl, rfl, ?_⟩
  cases generating <;> rfl

/-- C4: for every synthesized Assessment whose risk tier is High or
Critical, the recommended products contain no product the static table
flags as unsuitable for those tiers, regardless of what the AI backend
returned: the filter is applied as a hard post-filter on the output. -/
theorem high_risk_product_postfilter (cid : ℕ) (m : MetricSet)
    (sr : ScoreResult) (payload : AIPayload) (table : List (String × Bool))
    (lang : String) (aid now : ℕ) (a : Assessment)
    (h : synthesize cid m sr payload table lang aid now = .ok a)
    (hrisk : isHighOrCritical a.risk_level = true) :
    ∀ p ∈ a.recommended_products,
      flaggedUnsuitable table p.product_name = false := by
  intro p hp
  unfold synthesize at h
  cases hes : payload.executive_summary with
  | none => rw [hes] at h; exact absurd h (by simp)
  | some es =>
    rw [hes] at h
    simp only [Except.ok.injEq] at h
    rw [← h] at hp hrisk
    simp only at hp hrisk
    unfold filterProducts at hp
    rw [if_pos hrisk] at hp
    have := (List.mem_filter.mp hp).2
    simpa using this

/-- Static product table used to instantiate the post-filter theorem: one
product flagged unsuitable for high risk, one not. -/
def TABLE4 : List (String × Bool) :=
  [("Growth Leverage Loan", true), ("Secured Deposit", false)]

/-- Product acceptable at high risk, used to instantiate the post-filter
theorem. -/
def SAFE4 : Product :=
  { product_name := "Secured Deposit"
    type := "deposit"
    interest_range := "4-6%"
    benefits := ["capital preservation"] }

/-- Product flagged unsuitable for high risk in TABLE4. -/
def RISKY4 : Product :=
  { product_name := "Growth Leverage Loan"
    type := "loan"
    interest_range := "14-18%"
    benefits := ["rapid expansion"] }

/-- Backend payload whose product suggestions include a product flagged
unsuitable for high risk. -/
def PAYLOAD4 : AIPayload :=
  { executive_summary := some "High risk summary"
    strengths := []
    weaknesses := []
    opportunities := []
    threats := []
    cost_optimization := []
    revenue_enhancement := []
    working_capital_tips := []
    tax_optimization := []
    recommended_products := [RISKY4, SAFE4] }

/-- Assessment synthesized from PAYLOAD4 at High risk: the flagged product
has been filtered out. -/
def A4 : Assessment :=
  { id := 2
    company_id := 1
    snapshot := M0
    financial_health_score := 30
    risk_level := .High
    strengths := []
    weaknesses := []
    opportunities := []
    threats := []
    cost_optimization := []
    revenue_enhancement := []
    working_capital_tips := []
    tax_optimization := []
    recommended_products := [SAFE4]
    executive_summary := "High risk summary"
    language := "en"
    created_at := 0 }

/-- Concrete check of high_risk_product_postfilter: synthesizing PAYLOAD4 at
High risk yields A4, which keeps the safe product and drops the flagged
one, and the kept product is indeed unflagged in TABLE4. -/
theorem high_risk_product_postfilter_witness :
    synthesize 1 M0 { financial_health_score := 30, risk_level := .High }
        PAYLOAD4 TABLE4 "en" 2 0 = .ok A4 ∧
    isHighOrCritical A4.risk_level = true ∧
    SAFE4 ∈ A4.recommended_products ∧
    flaggedUnsuitable TABLE4 SAFE4.product_name = false :=
  ⟨by rfl, rfl, by decide,
    high_risk_product_postfilter 1 M0
      { financial_health_score := 30, risk_level := .High }
      PAYLOAD4 TABLE4 "en" 2 0 A4 (by rfl) rfl SAFE4 (by decide)⟩

/-- Ordering of assessments with the newest (largest created_at) first. -/
def newerFirst (a b : Assessment) : Prop := b.created_at ≤ a.created_at

instance : DecidableRel newerFirst :=
  fun a b => inferInstanceAs (Decidable (b.created_at ≤ a.created_at))

instance : IsTotal Assessment newerFirst :=
  ⟨fun a b => Nat.le_total b.created_at a.created_at⟩

instance : IsTrans Assessment newerFirst :=
  ⟨fun _ _ _ hab hbc => le_trans hbc hab⟩

/-- Modelled from the spec (section 6 Outputs, missing backend code): the
query-by-company operation over the stored assessments, which returns the
assessments of the requested company newest-first (descending created_at). -/
def assessmentsByCompany (db : List Assessment) (cid : ℕ) : List Assessment :=
  List.insertionSort newerFirst (db.filter (fun a => a.company_id == cid))

/-- C7: the list returned by the query-by-company operation holds exactly
the assessments of the requested company, ordered newest-first (descending
created_at); in particular every element is no newer than the element at
index 0, the one the Dashboard takes as the latest assessment. -/
theorem newest_first_query (db : List Assessment) (cid : ℕ) :
    List.Sorted newerFirst (assessmentsByCompany db cid) ∧
    (∀ a, a ∈ assessmentsByCompany db cid ↔ a ∈ db ∧ a.company_id = cid) ∧
    (∀ a ∈ assessmentsByCompany db cid, ∀ b,
        (assessmentsByCompany db cid).head? = some b →
        a.created_at ≤ b.created_at) := by
  refine ⟨List.sorted_insertionSort newerFirst _, ?_, ?_⟩
  · intro a
    simp [assessmentsByCompany]
  · intro a ha b hb
    have hs : List.Sorted newerFirst (assessmentsByCompany db cid) :=
      List.sorted_insertionSort newerFirst _
    cases hl : assessmentsByCompany db cid with
    | nil => rw [hl] at hb; exact absurd hb (by simp)
    | cons c rest =>
        rw [hl] at hb ha hs
        simp only [List.head?_cons, Option.some.injEq] at hb
        subst hb
        rcases List.mem_cons.mp ha with rfl | hmem
        · exact le_refl _
        · exact (List.sorted_cons.mp hs).1 a hmem

/-- MetricSet with every input not available, used in witnesses that must
avoid rational arithmetic. -/
def MSE : MetricSet :=
  { net_margin := none
    current_ratio := none
    debt_to_equity := none
    revenue_growth_rate := none
    operating_margin := none }

/-- Older assessment of company 1 used to instantiate the query theorem. -/
def B7a : Assessment := { A0 with snapshot := MSE, created_at := 5 }

/-- Newer assessment of company 1 used to instantiate the query theorem. -/
def B7b : Assessment :=
  { A4 with snapshot := MSE, created_at := 9, recommended_products := [] }

/-- Store used to instantiate the query theorem. -/
def DB7 : List Assessment := [B7a, B7b]

/-- Concrete check of newest_first_query: in the query result for company 1
over DB7 the newer assessment B7b sits at index 0, and the membership of the
older B7a forces its timestamp to be at most that of B7b. -/
theorem newest_first_query_witness :
    B7a ∈ assessmentsByCompany DB7 1 ∧
    (assessmentsByCompany DB7 1).head? = some B7b ∧
    B7a.created_at ≤ B7b.created_at :=
  ⟨by decide, by decide,
    (newest_first_query DB7 1).2.2 B7a (by decide) B7b (by decide)⟩

/-- Numeric fields of the assessment record as the Dashboard receives it,
keyed by the property names of the Assessment interface declared in
AssessmentDetail.tsx and used at Dashboard.tsx line 42. -/
def numericFields (a : Assessment) : List (String × ℕ) :=
  [("id", a.id), ("company_id", a.company_id),
   ("financial_health_score", a.financial_health_score),
   ("created_at", a.created_at)]

/-- JavaScript property access on a serialized record: the value when the
key is present, none (undefined) when it is absent. -/
def jsField (obj : List (String × ℕ)) (key : String) : Option ℕ :=
  (obj.find? (fun e => e.1 == key)).map (fun e => e.2)

/-- Translated from Dashboard.tsx line 307: each Recent Assessments entry
renders the property named health_score of the assessment object. -/
def recentAssessmentDisplayedScore (a : Assessment) : Option ℕ :=
  jsField (numericFields a) "health_score"

/-- Translated from AssessmentDetail.tsx line 110: the detail view renders
the property named financial_health_score. -/
def detailDisplayedScore (a : Assessment) : Option ℕ :=
  jsField (numericFields a) "financial_health_score"

/-- C8 fails on the code: the Dashboard Recent Assessments entry reads the
property health_score, which is not a field of the assessment record, so it
renders undefined for every assessment, while the detail view (and the
Dashboard statistics code two hundred lines above) correctly read
financial_health_score. -/
theorem dashboard_recent_score_field_mismatch (a : Assessment) :
    recentAssessmentDisplayedScore a = none ∧
    detailDisplayedScore a = some a.financial_health_score := by
  constructor <;> rfl

/-- JavaScript division producing none for the NaN or infinite result of a
zero divisor. -/
def jsDiv (a b : ℚ) : Option ℚ := if b = 0 then none else some (a / b)

/-- Translated from Dashboard.tsx lines 28-47: the running total of the
latest (index 0) health score of each company; a company without
assessments contributes nothing. -/
def totalHealthScore (ls : List (List Assessment)) : ℚ :=
  (ls.map (fun l =>
    match l.head? with
    | some latest => (latest.financial_health_score : ℚ)
    | none => 0)).sum

/-- Translated from Dashboard.tsx lines 40-43: the count of fetched
companies having at least one assessment. -/
def companiesWithAssessments (ls : List (List Assessment)) : ℕ :=
  (ls.filter (fun l => !l.isEmpty)).length

/-- Translated from Dashboard.tsx line 57: the average health score, with
the division guarded by companiesWithAssessments being positive and 0
returned otherwise. -/
def avgHealthScore (ls : List (List Assessment)) : Option ℚ :=
  if 0 < companiesWithAssessments ls then
    jsDiv (totalHealthScore ls) (companiesWithAssessments ls)
  else some 0

/-- C9: the Dashboard average health score is well defined on every input;
in particular when no fetched company has an assessment it is exactly 0
rather than a division-by-zero result, because the division is guarded by
the positivity of companiesWithAssessments. -/
theorem avg_health_score_guarded (ls : List (List Assessment)) :
    avgHealthScore ls ≠ none ∧
    ((∀ l ∈ ls, l = []) → avgHealthScore ls = some 0) := by
  constructor
  · unfold avgHealthScore
    by_cases h : 0 < companiesWithAssessments ls
    · rw [if_pos h]
      unfold jsDiv
      rw [if_neg (by exact_mod_cast Nat.pos_iff_ne_zero.mp h)]
      simp
    · rw [if_neg h]
      simp
  · intro hall
    have h0 : companiesWithAssessments ls = 0 := by
      unfold companiesWithAssessments
      simp only [List.length_eq_zero, List.filter_eq_nil_iff]
      intro l hl
      simp [hall l hl]
    unfold avgHealthScore
    rw [if_neg (by omega)]

/-- Concrete check of avg_health_score_guarded on two companies with no
assessments: the average is defined and equals 0. -/
theorem avg_health_score_guarded_witness :
    avgHealthScore [[], []] ≠ none ∧ avgHealthScore [[], []] = some 0 :=
  ⟨(avg_health_score_guarded [[], []]).1,
    (avg_health_score_guarded [[], []]).2 (by decide)⟩

/-- Company record of the Companies page (Companies.tsx), reduced to the
fields the delete handler touches. -/
structure Company where
  id : ℕ
  name : String
deriving DecidableEq, Repr

/-- JavaScript or-else on an optional string, falling back on undefined and
on the empty (falsy) string. -/
def jsOr (detail : Option String) (fallback : String) : String :=
  match detail with
  | some d => if d = "" then fallback else d
  | none => fallback

/-- Translated from Companies.tsx lines 27-44 (handleDelete): after the
confirm dialog, the delete API call runs; only on success is the company
filtered out of the rendered list (with the error cleared), and on failure
the list is untouched and the error is set to the response detail or the
fallback message. -/
def handleDelete (confirmed : Bool) (companies : List Company)
    (err0 : Option String) (companyId : ℕ)
    (apiResult : Except (Option String) Unit) :
    List Company × Option String :=
  if !confirmed then (companies, err0)
  else
    match apiResult with
    | .ok _ => (companies.filter (fun c => c.id != companyId), none)
    | .error detail =>
        (companies, some (jsOr detail "Failed to delete company"))

/-- C10: company deletion is atomic with respect to the displayed list: on a
failed API call the companies list is unchanged and the error is set to the
response detail or the fallback; on a successful call the removed company
is exactly the deleted one (an element survives iff it was present and has
a different id) and the error is cleared. -/
theorem delete_company_atomic (companies : List Company)
    (err0 : Option String) (cid : ℕ) (detail : Option String) :
    handleDelete true companies err0 cid (.error detail) =
      (companies, some (jsOr detail "Failed to delete company")) ∧
    (handleDelete true companies err0 cid (.ok ())).2 = none ∧
    (∀ c, c ∈ (handleDelete true companies err0 cid (.ok ())).1 ↔
      c ∈ companies ∧ c.id ≠ cid) := by
  refine ⟨rfl, rfl, ?_⟩
  intro c
  simp [handleDelete]

/-- Companies list used to instantiate the delete theorem. -/
def COMPANIES10 : List Company := [{ id := 1, name := "Acme" }, { id := 2, name := "Beta" }]

/-- Concrete check of delete_company_atomic: a failed delete of company 1
leaves COMPANIES10 untouched and surfaces the detail string, and after a
successful delete company 2 survives exactly because its id differs. -/
theorem delete_company_atomic_witness :
    handleDelete true COMPANIES10 none 1 (.error (some "boom")) =
      (COMPANIES10, some (jsOr (some "boom") "Failed to delete company")) ∧
    ({ id := 2, name := "Beta" } ∈
        (handleDelete true COMPANIES10 none 1 (.ok ())).1 ↔
      { id := 2, name := "Beta" } ∈ COMPANIES10 ∧ (2 : ℕ) ≠ 1) :=
  ⟨(delete_company_atomic COMPANIES10 none 1 (some "boom")).1,
    (delete_company_atomic COMPANIES10 none 1 (some "boom")).2.2
      { id := 2, name := "Beta" }⟩

end FinHealth
